import Mathlib

/-!
# Verification of the Chronicle AI Editor generation orchestration core

Shallow embedding of the generation orchestration state machine of the
AI-Editor repository (src/App.tsx, src/types.ts, the xstate `editorMachine`,
the `generateContinuation` service adapter, and the edge-detecting sync
bridge in `App`), together with theorems settling the specification's
claims about it.
-/

namespace AIEditor

/-- `src/types.ts` — `EditorContext`: `error: string | null`,
`lastGeneratedText: string | null`. -/
structure EditorContext where
  error : Option String
  lastGeneratedText : Option String
  deriving DecidableEq, Repr

/-- The three state values of `editorMachine`: `idle`, `generating`,
`failure`. -/
inductive StateValue where
  | idle
  | generating
  | failure
  deriving DecidableEq, Repr

/-- Events processed by the machine.  `GENERATE`, `RETRY` and `RESET` are
the external events of `src/types.ts` (`EditorEvent`); `doneGenerate` and
`errorGenerate` are the internal outcomes of the invoked `generateText`
actor (xstate `onDone` / `onError`).  A JavaScript rejection reason that is
an `Error` instance carries its message as `some msg`; any other reason is
`none`. -/
inductive MachineEvent where
  | GENERATE (currentText : String)
  | RETRY
  | RESET
  | doneGenerate (output : String)
  | errorGenerate (errMessage : Option String)
  deriving DecidableEq, Repr

/-- A machine snapshot: the current state value plus the orchestration
context. -/
structure MachineState where
  value : StateValue
  context : EditorContext
  deriving DecidableEq, Repr

/-- `setError` action: `error` becomes the rejection's message when the
reason is an `Error` instance, else the fixed fallback string
`'An unknown error occurred'`; `lastGeneratedText` is not assigned. -/
def setError (ctx : EditorContext) (errMessage : Option String) : EditorContext :=
  { ctx with
    error := some (match errMessage with
      | some m => m
      | none => "An unknown error occurred") }

/-- `clearError` action: `error := null`. -/
def clearError (ctx : EditorContext) : EditorContext :=
  { ctx with error := none }

/-- `setLastGenerated` action: one `assign` that sets
`lastGeneratedText := event.output` and `error := null`. -/
def setLastGenerated (ctx : EditorContext) (output : String) : EditorContext :=
  { ctx with lastGeneratedText := some output, error := none }

/-- JavaScript `x || ''` on a string: the empty string is falsy. -/
def jsOrEmpty (s : String) : String :=
  if s == "" then "" else s

/-- Result of one machine step: the new state, plus `some input` when the
step entered `generating` and therefore invoked the `generateText` actor
(whose `input` is `(event as any).currentText || ''`). -/
structure StepResult where
  state : MachineState
  providerCall : Option String
  deriving DecidableEq, Repr

/-- One transition of `editorMachine` (xstate semantics: an event not
handled in the current state leaves the state and context unchanged).

* `idle`: `GENERATE → generating`, action `clearError`, invokes the actor.
* `generating`: `onDone → idle`, action `setLastGenerated`;
  `onError → failure`, action `setError`; no external event is handled.
* `failure`: `RETRY → idle`, action `clearError`;
  `GENERATE → generating`, action `clearError`, invokes the actor.
* `RESET` appears in `EditorEvent` but no state handles it. -/
def editorMachineStep (s : MachineState) (e : MachineEvent) : StepResult :=
  match s.value, e with
  | .idle, .GENERATE t =>
      ⟨⟨.generating, clearError s.context⟩, some (jsOrEmpty t)⟩
  | .generating, .doneGenerate out =>
      ⟨⟨.idle, setLastGenerated s.context out⟩, none⟩
  | .generating, .errorGenerate m =>
      ⟨⟨.failure, setError s.context m⟩, none⟩
  | .failure, .RETRY =>
      ⟨⟨.idle, clearError s.context⟩, none⟩
  | .failure, .GENERATE t =>
      ⟨⟨.generating, clearError s.context⟩, some (jsOrEmpty t)⟩
  | _, _ => ⟨s, none⟩

/-- The machine's initial configuration: `idle`, `{error: null,
lastGeneratedText: null}`. -/
def initialState : MachineState :=
  ⟨.idle, ⟨none, none⟩⟩

/-- States the running machine can actually be in: the initial state and
everything reachable from it by steps. -/
inductive Reachable : MachineState → Prop where
  | init : Reachable initialState
  | step (s : MachineState) (e : MachineEvent) :
      Reachable s → Reachable (editorMachineStep s e).state

/-- JavaScript truthiness of a `string | null` value: `null` and `''` are
falsy, every other string is truthy. -/
def jsTruthyStr : Option String → Bool
  | none => false
  | some s => !(s == "")

/-- The sync bridge's insertion condition (the edge-detecting `useEffect`
in `App`): `previousStateValue.current === 'generating' &&
state.matches('idle') && state.context.lastGeneratedText`. -/
def bridgeInserts (prev : StateValue) (s : MachineState) : Bool :=
  prev == .generating && s.value == .idle && jsTruthyStr s.context.lastGeneratedText

/-- The previous state value the bridge's ref holds before processing the
`j`-th observed snapshot of the stream `obs`: the initial value `p` for
`j = 0`, and the previously observed snapshot's value afterwards (the
effect ends with `previousStateValue.current = state.value`). -/
def bridgePrev (p : StateValue) (obs : Nat → MachineState) : Nat → StateValue
  | 0 => p
  | j + 1 => (obs j).value

/-- Whether the bridge invokes `insertContent` while processing the `j`-th
observed snapshot. -/
def bridgeInsertsAt (p : StateValue) (obs : Nat → MachineState) (j : Nat) : Bool :=
  bridgeInserts (bridgePrev p obs j) (obs j)

/-- JavaScript `String.prototype.trim`: drop whitespace characters from
both ends of the string. -/
def jsTrim (s : String) : String :=
  ⟨((s.data.dropWhile Char.isWhitespace).reverse.dropWhile Char.isWhitespace).reverse⟩

/-- `handleContinueWriting` in `App`: read the current document text; if it
is empty after trimming, alert and send nothing; otherwise send
`GENERATE{currentText}` into the machine.  Returns the machine's step
result and the event sent, if any. -/
def handleContinueWriting (currentText : String) (s : MachineState) :
    StepResult × Option MachineEvent :=
  if jsTrim currentText == "" then
    (⟨s, none⟩, none)
  else
    (editorMachineStep s (.GENERATE currentText), some (.GENERATE currentText))

/-- The provider's observable outcome as seen by `generateContinuation`:
either `generateContent` resolved with a response whose `text` field is
`text` (possibly absent), or the call threw (reason's message as in
`MachineEvent.errorGenerate`). -/
inductive ProviderOutcome where
  | resolved (text : Option String)
  | threw (errMessage : Option String)
  deriving DecidableEq, Repr

/-- `generateContinuation` in the gemini service: on a resolved response,
`const text = response.text; if (!text) throw new Error("No text generated
from Gemini.")` — both an absent and an empty `text` are falsy — else
return `text`; a thrown error is logged and rethrown unchanged. -/
def generateContinuation (outcome : ProviderOutcome) : Except (Option String) String :=
  match outcome with
  | .threw m => .error m
  | .resolved t =>
    match t with
    | none => .error (some "No text generated from Gemini.")
    | some s =>
      if s == "" then .error (some "No text generated from Gemini.")
      else .ok s

/-- Events whose success payload comes from the invoked `generateText`
actor, i.e. whose `onDone` output is a value `generateContinuation`
actually returned. -/
def adapterEvent (e : MachineEvent) : Prop :=
  ∀ out, e = .doneGenerate out → ∃ outcome, generateContinuation outcome = .ok out

/-- States of machine runs in which every success event carries an adapter
result (the program's actual runs: the `generateText` actor resolves with
the value `generateContinuation` returned). -/
inductive ReachableRun : MachineState → Prop where
  | init : ReachableRun initialState
  | step (s : MachineState) (e : MachineEvent) :
      ReachableRun s → adapterEvent e → ReachableRun (editorMachineStep s e).state

/-- In every reachable state, being in `failure` means `error` is set:
`failure` is only entered through `setError`, which assigns `some` message,
and both transitions out of `failure` leave the state value. -/
theorem reachable_failure_error_isSome (s : MachineState)
    (h : Reachable s) (hv : s.value = .failure) :
    s.context.error ≠ none := by
  induction h with
  | init => simp [initialState] at hv
  | step s e _ ih =>
    rcases s with ⟨v, ctx⟩
    cases v <;> cases e <;> simp_all [editorMachineStep, setError]

/-- `jsOrEmpty` is the identity: `t || ''` equals `t` for every string,
including the empty one. -/
theorem jsOrEmpty_eq (s : String) : jsOrEmpty s = s := by
  simp only [jsOrEmpty, beq_iff_eq]
  split <;> simp_all

/-- Truthiness of a `string | null` value that is not the empty string is
exactly non-nullness. -/
theorem jsTruthyStr_eq_true (o : Option String) (h : o ≠ some "") :
    jsTruthyStr o = true ↔ o ≠ none := by
  cases o with
  | none => simp [jsTruthyStr]
  | some s => simp_all [jsTruthyStr]

/-- Any text `generateContinuation` returns successfully is non-empty: the
empty string is falsy and would have been thrown as an error. -/
theorem generateContinuation_ok_ne_empty (outcome : ProviderOutcome) (s : String)
    (h : generateContinuation outcome = .ok s) : s ≠ "" := by
  rcases outcome with t | m
  · cases t with
    | none => simp [generateContinuation] at h
    | some str =>
      by_cases hs : str = ""
      · simp [generateContinuation, hs] at h
      · simp [generateContinuation, hs] at h
        subst h
        exact hs
  · simp [generateContinuation] at h

/-- Along every actual machine run, `lastGeneratedText` is never the empty
string: it starts `null` and is only ever assigned a non-empty adapter
result.  This grounds the side condition of the sync-bridge theorem. -/
theorem reachableRun_lastGenerated_ne_empty (s : MachineState) (h : ReachableRun s) :
    s.context.lastGeneratedText ≠ some "" := by
  induction h with
  | init => simp [initialState]
  | step s e _ hA ih =>
    rcases s with ⟨v, ctx⟩
    cases v <;> cases e
    case generating.doneGenerate out =>
      rcases hA out rfl with ⟨outcome, hok⟩
      simpa [editorMachineStep, setLastGenerated] using
        generateContinuation_ok_ne_empty outcome out hok
    all_goals simp_all [editorMachineStep, clearError, setError]

/-- C2: a provider success with text `t`, delivered while `generating`,
moves the machine to `idle` with `error = null` and
`lastGeneratedText = t`, and invokes no further provider call. -/
theorem provider_success_yields_idle (ctx : EditorContext) (t : String) :
    editorMachineStep ⟨.generating, ctx⟩ (.doneGenerate t) =
      ⟨⟨.idle, ⟨none, some t⟩⟩, none⟩ := by
  rcases ctx with ⟨e, l⟩
  rfl

/-- C3: a provider failure delivered while `generating` moves the machine
to `failure`; `error` becomes the failure's message when it carries one and
the fixed fallback string `'An unknown error occurred'` otherwise, and
`lastGeneratedText` keeps its value from before the attempt. -/
theorem provider_failure_yields_failure (ctx : EditorContext) (m : Option String) :
    editorMachineStep ⟨.generating, ctx⟩ (.errorGenerate m) =
      ⟨⟨.failure, ⟨some (m.getD "An unknown error occurred"), ctx.lastGeneratedText⟩⟩,
        none⟩ := by
  cases m <;> rfl

/-- C4: `GENERATE` is accepted exactly in `idle` and `failure`: delivered
while `generating` it causes no transition, no context mutation and no
provider call, while from `idle` and from `failure` it moves the machine to
`generating`. -/
theorem generate_rejected_while_generating (ctx : EditorContext) (t : String) :
    editorMachineStep ⟨.generating, ctx⟩ (.GENERATE t) = ⟨⟨.generating, ctx⟩, none⟩
    ∧ (editorMachineStep ⟨.idle, ctx⟩ (.GENERATE t)).state.value = .generating
    ∧ (editorMachineStep ⟨.failure, ctx⟩ (.GENERATE t)).state.value = .generating := by
  refine ⟨rfl, rfl, rfl⟩

/-- C5: `handleContinueWriting` on a document whose text trims to empty
sends no event and triggers no provider call, leaving the machine's state
and context unchanged; on non-empty trimmed text it sends
`GENERATE{currentText}`. -/
theorem handleContinueWriting_validates (t : String) (s : MachineState) :
    (jsTrim t = "" → handleContinueWriting t s = (⟨s, none⟩, none))
    ∧ (jsTrim t ≠ "" → handleContinueWriting t s =
        (editorMachineStep s (.GENERATE t), some (.GENERATE t))) := by
  constructor <;> intro h <;> simp [handleContinueWriting, h]

/-- Witness for C5 at concrete inputs: a whitespace document is rejected, a
non-empty one sends `GENERATE`. -/
theorem handleContinueWriting_validates_witness :
    handleContinueWriting "  " initialState = (⟨initialState, none⟩, none)
    ∧ handleContinueWriting "hi" initialState =
        (editorMachineStep initialState (.GENERATE "hi"), some (.GENERATE "hi")) :=
  ⟨(handleContinueWriting_validates "  " initialState).1 (by decide),
   (handleContinueWriting_validates "hi" initialState).2 (by decide)⟩

/-- C6: `generateContinuation` turns a response with empty or absent text
into a failure with the message `'No text generated from Gemini.'`, and
never returns the empty string as a success. -/
theorem generateContinuation_rejects_empty :
    (∀ t : Option String, t = none ∨ t = some "" →
        generateContinuation (.resolved t) =
          .error (some "No text generated from Gemini."))
    ∧ (∀ (outcome : ProviderOutcome) (s : String),
        generateContinuation outcome = .ok s → s ≠ "") := by
  constructor
  · rintro t (rfl | rfl) <;> rfl
  · exact generateContinuation_ok_ne_empty

/-- Witness for C6 at concrete inputs: the empty-text response fails, and a
concrete success is non-empty. -/
theorem generateContinuation_rejects_empty_witness :
    generateContinuation (.resolved (some "")) =
      .error (some "No text generated from Gemini.")
    ∧ ("x" : String) ≠ "" :=
  ⟨generateContinuation_rejects_empty.1 (some "") (Or.inr rfl),
   generateContinuation_rejects_empty.2 (.resolved (some "x")) "x" rfl⟩

/-- C7: in `failure`, `RETRY` clears `error` and returns to `idle` with no
provider call, while `GENERATE{t}` clears `error` and goes directly to
`generating`, invoking the provider with `t`. -/
theorem failure_retry_and_generate (ctx : EditorContext) (t : String) :
    editorMachineStep ⟨.failure, ctx⟩ .RETRY =
      ⟨⟨.idle, { ctx with error := none }⟩, none⟩
    ∧ editorMachineStep ⟨.failure, ctx⟩ (.GENERATE t) =
        ⟨⟨.generating, { ctx with error := none }⟩, some t⟩ := by
  refine ⟨rfl, ?_⟩
  simp [editorMachineStep, clearError, jsOrEmpty_eq]

/-- C8: in every reachable state whose context has `error = null`, `RETRY`
leaves the state value and the context unchanged (and makes no provider
call): `idle` and `generating` do not handle `RETRY`, and a reachable
`failure` state always has `error` set. -/
theorem retry_noop_when_no_error (s : MachineState) (h : Reachable s)
    (he : s.context.error = none) :
    editorMachineStep s .RETRY = ⟨s, none⟩ := by
  rcases s with ⟨v, ctx⟩
  cases v with
  | idle => rfl
  | generating => rfl
  | failure => exact absurd he (reachable_failure_error_isSome _ h rfl)

/-- Witness for C8 at the initial state, whose `error` is `null`. -/
theorem retry_noop_when_no_error_witness :
    editorMachineStep initialState .RETRY = ⟨initialState, none⟩ :=
  retry_noop_when_no_error initialState .init rfl

/-- C9: the success action sets `lastGeneratedText` and clears `error` in
one atomic assignment, and the failure action sets `error` while leaving
`lastGeneratedText` untouched — so no single attempt's result sets both. -/
theorem success_failure_actions_disjoint (ctx : EditorContext) (t : String)
    (m : Option String) :
    setLastGenerated ctx t = ⟨none, some t⟩
    ∧ (setError ctx m).lastGeneratedText = ctx.lastGeneratedText
    ∧ (setError ctx m).error = some (m.getD "An unknown error occurred") := by
  refine ⟨rfl, rfl, ?_⟩
  cases m <;> rfl

/-- C10: `RESET` is declared in `EditorEvent` but handled by no state: in
every state and context it changes nothing and triggers no provider
call. -/
theorem reset_is_ignored (s : MachineState) :
    editorMachineStep s .RESET = ⟨s, none⟩ := by
  rcases s with ⟨v, ctx⟩
  cases v <;> rfl

/-- C1: over any stream of observed machine snapshots none of which holds
the empty string as `lastGeneratedText` (the adapter never succeeds with
empty text), the sync bridge invokes the insert operation at step `j` if
and only if the previously observed state value was `generating`, the new
one is `idle`, and `lastGeneratedText` is non-null; hence it never inserts
on a `generating → failure`, `idle → idle`, or `failure → idle` step, and
any two insertions are separated by a fresh `generating → idle` edge. -/
theorem sync_bridge_edge_triggered (p : StateValue) (obs : Nat → MachineState)
    (hne : ∀ j, (obs j).context.lastGeneratedText ≠ some "") :
    (∀ j, bridgeInsertsAt p obs j = true ↔
        (bridgePrev p obs j = .generating ∧ (obs j).value = .idle ∧
          (obs j).context.lastGeneratedText ≠ none))
    ∧ (∀ j, bridgePrev p obs j = .generating → (obs j).value = .failure →
        bridgeInsertsAt p obs j = false)
    ∧ (∀ j, bridgePrev p obs j = .idle → (obs j).value = .idle →
        bridgeInsertsAt p obs j = false)
    ∧ (∀ j, bridgePrev p obs j = .failure → (obs j).value = .idle →
        bridgeInsertsAt p obs j = false)
    ∧ (∀ i j, i < j → bridgeInsertsAt p obs i = true →
        bridgeInsertsAt p obs j = true →
        i ≤ j - 1 ∧ (obs (j - 1)).value = .generating ∧ (obs j).value = .idle) := by
  have hchar : ∀ j, bridgeInsertsAt p obs j = true ↔
      (bridgePrev p obs j = .generating ∧ (obs j).value = .idle ∧
        (obs j).context.lastGeneratedText ≠ none) := by
    intro j
    simp only [bridgeInsertsAt, bridgeInserts, Bool.and_eq_true, beq_iff_eq, and_assoc,
      jsTruthyStr_eq_true _ (hne j)]
  refine ⟨hchar, ?_, ?_, ?_, ?_⟩
  · intro j h1 h2
    cases hb : bridgeInsertsAt p obs j with
    | false => rfl
    | true =>
      rcases (hchar j).mp hb with ⟨_, hidle, _⟩
      rw [h2] at hidle
      exact absurd hidle (by simp)
  · intro j h1 h2
    cases hb : bridgeInsertsAt p obs j with
    | false => rfl
    | true =>
      rcases (hchar j).mp hb with ⟨hgen, _, _⟩
      rw [h1] at hgen
      exact absurd hgen (by simp)
  · intro j h1 h2
    cases hb : bridgeInsertsAt p obs j with
    | false => rfl
    | true =>
      rcases (hchar j).mp hb with ⟨hgen, _, _⟩
      rw [h1] at hgen
      exact absurd hgen (by simp)
  · intro i j hij hi hj
    rcases (hchar j).mp hj with ⟨hprev, hidle, _⟩
    obtain ⟨k, rfl⟩ : ∃ k, j = k + 1 := ⟨j - 1, by omega⟩
    refine ⟨by omega, ?_, hidle⟩
    simpa [bridgePrev] using hprev

/-- Witness for C1: a concrete stream on which the bridge fires at step 0
(previous value `generating`, new snapshot `idle` with non-null text). -/
theorem sync_bridge_edge_triggered_witness :
    bridgeInsertsAt .generating (fun _ => ⟨.idle, ⟨none, some "a"⟩⟩) 0 = true :=
  ((sync_bridge_edge_triggered .generating (fun _ => ⟨.idle, ⟨none, some "a"⟩⟩)
      (fun _ => by show (some "a" : Option String) ≠ some ""; decide)).1 0).mpr
    ⟨rfl, rfl, by show (some "a" : Option String) ≠ none; decide⟩

end AIEditor
